import Mathlib

set_option maxRecDepth 100000

/-!
Verification development for the screen-client weather display renderer:
the packed monochrome framebuffer (coordinate mapper, pixel writes, initial
state), the fixed compositing recipe of `main`, wind-bearing icon bucketing,
ordinal-to-color conversion, and the serial transfer framing.

External collaborators excluded by the design document (glyph rasterization,
bitmap decoding, float formatting, word wrapping, the network fetch and the
serial transport) are abstracted as opaque inputs; everything else is
translated directly from `src/main.rs`.
-/

/-- Grid height in logical pixels: `pub const ROWS: u16 = 128`. -/
def ROWS : Nat := 128

/-- Grid width in logical pixels: `pub const COLS: u16 = 250`. -/
def COLS : Nat := 250

/-- Two-state pixel color, `enum Color` with variants `Black` and `White`. -/
inductive Color where
  | Black
  | White
deriving DecidableEq

/-- `impl From<u8> for Color`: 0 is Black, 1 is White, any other value hits
    `panic!` in the source; the panic is modelled as `none`. -/
def colorFromU8 (value : Nat) : Option Color :=
  match value with
  | 0 => some Color.Black
  | 1 => some Color.White
  | _ => none

/-- `impl From<u16> for Color`: same match as the `u8` conversion. -/
def colorFromU16 (value : Nat) : Option Color :=
  match value with
  | 0 => some Color.Black
  | 1 => some Color.White
  | _ => none

/-- `fn get_bit(x, y, width, height) -> (u32, u8)`, translated verbatim:
    `(y / 8 + (height - 1 - x) * (width / 8), 0x80 >> (y % 8))`. -/
def get_bit (x y width height : Nat) : Nat × Nat :=
  (y / 8 + (height - 1 - x) * (width / 8), 128 >>> (y % 8))

/-- The packed byte buffer as a map from byte index to byte value (the
    `&mut [u8]` slice of `struct Display`, indexed functionally). -/
def Buff : Type := Nat → Nat

/-- `Display::set_pixel`: computes `get_bit(x, y, ROWS, COLS)`, then for
    Black clears the addressed bit, `buff[index] &= !bit`, and for White
    sets it, `buff[index] |= bit`. `!bit` on `u8` is `255 ^^^ bit`. -/
def set_pixel (buff : Buff) (x y : Nat) (color : Color) : Buff :=
  let p := get_bit x y ROWS COLS
  match color with
  | Color.Black => fun i => if i = p.1 then buff p.1 &&& (255 ^^^ p.2) else buff i
  | Color.White => fun i => if i = p.1 then buff p.1 ||| p.2 else buff i

/-- The value of the single bit addressed by `(x, y)`: the mapped byte
    masked by the mapped bit mask. Reader used to state the bit-level
    properties of `set_pixel`. -/
def pixelBit (buff : Buff) (x y : Nat) : Nat :=
  let p := get_bit x y ROWS COLS
  buff p.1 &&& p.2

/-- The freshly allocated framebuffer of `main` as a byte list:
    `[255u8; ROWS as usize * COLS as usize / 8]`. -/
def initialBuff : List Nat := List.replicate (ROWS * COLS / 8) 255

/-- The fresh framebuffer as a byte map: every byte is 255. -/
def initialFB : Buff := fun _ => 255

/-- A buffer state with every bit cleared, used to probe properties that
    quantify over all buffer states. -/
def zeroFB : Buff := fun _ => 0

/-- The three ProFont glyph sizes used by the renderer. -/
inductive Font where
  | P24
  | P14
  | P9
deriving DecidableEq

/-- The eight directional arrow bitmaps. -/
inductive Arrow where
  | north
  | northEast
  | east
  | southEast
  | south
  | southWest
  | west
  | northWest
deriving DecidableEq

/-- The 40x40 1BPP bitmap assets: the eight arrows and the three condition
    icons. Their decoded pixel content is external (the `.bmp` resources
    and the Image1BPP decoder); only the identity of the selected asset is
    tracked here. -/
inductive Img where
  | arrow (a : Arrow)
  | clearDay
  | clearNight
  | partlyCloudyDay
deriving DecidableEq

/-- The DarkSky condition icon enumeration (`enum Icon` of the source,
    all thirteen variants). -/
inductive Icon where
  | ClearDay
  | ClearNight
  | Cloudy
  | Fog
  | Hail
  | PartlyCloudyDay
  | PartlyCloudyNight
  | Rain
  | Sleet
  | Snow
  | Thunderstorm
  | Tornado
  | Wind
deriving DecidableEq

/-- The wind-bearing match of `main` on `dir as i32`:
    `337..360 | 0..22` north, `22..67` north-east, `67..112` east,
    `112..157` south-east, `157..202` south, `202..247` south-west,
    `247..292` west, `292..337` north-west, `_` north. The Rust range
    patterns are half-open; the arms are disjoint, so the ordered `if`
    chain below is the same function. -/
def windIcon (dir : Int) : Arrow :=
  if (337 ≤ dir ∧ dir < 360) ∨ (0 ≤ dir ∧ dir < 22) then Arrow.north
  else if 22 ≤ dir ∧ dir < 67 then Arrow.northEast
  else if 67 ≤ dir ∧ dir < 112 then Arrow.east
  else if 112 ≤ dir ∧ dir < 157 then Arrow.southEast
  else if 157 ≤ dir ∧ dir < 202 then Arrow.south
  else if 202 ≤ dir ∧ dir < 247 then Arrow.southWest
  else if 247 ≤ dir ∧ dir < 292 then Arrow.west
  else if 292 ≤ dir ∧ dir < 337 then Arrow.northWest
  else Arrow.north

/-- One drawing operation of the compositor: a text run at a glyph size or
    a bitmap image, each with its `translate` placement. -/
inductive Op where
  | text (f : Font) (s : String) (x y : Nat)
  | image (img : Img) (x y : Nat)
deriving DecidableEq

/-- Rust `str::split('\n')` on the character list of a string: splitting an
    empty string yields one empty piece, and every newline starts a new
    piece. -/
def splitNl : List Char → List (List Char)
  | [] => [[]]
  | c :: cs =>
    match splitNl cs with
    | [] => [[c]]
    | l :: ls => if c = '\n' then [] :: l :: ls else (c :: l) :: ls

/-- External inputs of one render cycle that the design document excludes
    from the core: the chrono-formatted clock and date strings, and the
    textwrap `fill(_, 20)` word wrapper. -/
structure Params where
  timeStr : String
  dateStr : String
  fill20 : String → String

/-- `fill(&s, 20)` followed by `.split('\n')`, as applied to both summary
    texts. -/
def wrapLines (P : Params) (s : String) : List String :=
  (splitNl (P.fill20 s).data).map (fun l => String.mk l)

/-- The fields of the DarkSky `Datapoint` struct that the renderer reads.
    The `f64` fields temperature, precip_probability and wind_speed are
    abstracted as their already-formatted text (float formatting is an
    external capability), wind_bearing as the result of the `dir as i32`
    cast; the several dozen unread fields of the source struct are
    omitted. -/
structure Datapoint where
  temperature : Option String
  precipProbability : Option String
  windSpeed : Option String
  windBearing : Option Int
  summary : Option String
  icon : Option Icon
deriving DecidableEq

/-- `struct Datablock`: optional datapoint list, icon and summary. -/
structure Datablock where
  data : Option (List Datapoint)
  icon : Option Icon
  summary : Option String
deriving DecidableEq

/-- The two blocks of `struct Forecast` that the renderer reads. -/
structure Forecast where
  currently : Option Datapoint
  daily : Option Datablock
deriving DecidableEq

/-- Which steps of the fixed rendering recipe run. `allSteps` is the
    program itself; the skip-one variants state the specification's
    "recipe with that step omitted". -/
structure Steps where
  temp : Bool
  precip : Bool
  wind : Bool
  summary : Bool
  daily : Bool
  icon : Bool

def allSteps : Steps := ⟨true, true, true, true, true, true⟩

def skipTemp : Steps := ⟨false, true, true, true, true, true⟩

def skipPrecip : Steps := ⟨true, false, true, true, true, true⟩

def skipWind : Steps := ⟨true, true, false, true, true, true⟩

def skipSummary : Steps := ⟨true, true, true, false, true, true⟩

def skipDaily : Steps := ⟨true, true, true, true, false, true⟩

def skipIcon : Steps := ⟨true, true, true, true, true, false⟩

/-- The two unconditional draws: the clock at 24pt, `(0, 20)`, then the
    date at 14pt, `(0, 0)`. -/
def baseOps (P : Params) : List Op :=
  [Op.text Font.P24 P.timeStr 0 20, Op.text Font.P14 P.dateStr 0 0]

/-- Step 3: temperature text with the degree suffix at `(130, 0)`. -/
def tempOps (flag : Bool) (cur : Datapoint) : List Op :=
  if flag then
    match cur.temperature with
    | some t => [Op.text Font.P14 (t ++ "°") 130 0]
    | none => []
  else []

/-- Step 4: precipitation probability with the percent suffix at
    `(162, 0)`. -/
def precipOps (flag : Bool) (cur : Datapoint) : List Op :=
  if flag then
    match cur.precipProbability with
    | some p => [Op.text Font.P14 (p ++ "%") 162 0]
    | none => []
  else []

/-- Step 5: if wind speed is present, the bearing arrow (when the bearing
    is present) at `(86, 44)` followed by the speed text with the MPH
    suffix at `(200, 0)`. -/
def windOps (flag : Bool) (cur : Datapoint) : List Op :=
  if flag then
    match cur.windSpeed with
    | none => []
    | some w =>
      (match cur.windBearing with
       | some dir => [Op.image (Img.arrow (windIcon dir)) 86 44]
       | none => []) ++ [Op.text Font.P14 (w ++ "MPH") 200 0]
  else []

/-- The `currently` summary loop of `main`: for each enumerated line the
    code does `count += i as i32` and draws the line at
    `(130, 20 + count * 10)` in 9pt; returns the drawn ops and the final
    value of `count`. -/
def curLoop : List String → Nat → Nat → List Op × Nat
  | [], _, count => ([], count)
  | l :: ls, i, count =>
    let c := count + i
    let r := curLoop ls (i + 1) c
    (Op.text Font.P9 l 130 (20 + c * 10) :: r.1, r.2)

/-- Step 6: wrap `"Currently: " ++ summary` and run the summary loop;
    absent summary leaves `count` at 0 and draws nothing. -/
def sumOps (flag : Bool) (P : Params) (cur : Datapoint) : List Op × Nat :=
  if flag then
    match cur.summary with
    | some s => curLoop (wrapLines P ("Currently: " ++ s)) 0 0
    | none => ([], 0)
  else ([], 0)

/-- The `daily` summary loop of `main`: line `i` is drawn at
    `(130, 20 + (i + count) * 10)` in 9pt; `count` itself is not
    mutated here. -/
def todayLoop : List String → Nat → Nat → List Op
  | [], _, _ => []
  | l :: ls, i, count =>
    Op.text Font.P9 l 130 (20 + (i + count) * 10) :: todayLoop ls (i + 1) count

/-- Step 7: the daily summary, read from `data[0]` of the daily block.
    `none` models the index-out-of-bounds panic of `&data[0]` when the
    data list is present but empty. -/
def dailyOps (flag : Bool) (P : Params) (daily : Option Datablock) (count : Nat) :
    Option (List Op) :=
  if flag then
    match daily with
    | none => some []
    | some db =>
      match db.data with
      | none => some []
      | some [] => none
      | some (d0 :: _) =>
        match d0.summary with
        | none => some []
        | some s => some (todayLoop (wrapLines P ("Today: " ++ s)) 0 count)
  else some []

/-- Step 8: the condition icon match; only clear-day, clear-night and
    partly-cloudy-day draw, every other case (including absence) draws
    nothing. -/
def iconOps (flag : Bool) (cur : Datapoint) : List Op :=
  if flag then
    match cur.icon with
    | some Icon.ClearDay => [Op.image Img.clearDay 86 0]
    | some Icon.ClearNight => [Op.image Img.clearNight 86 0]
    | some Icon.PartlyCloudyDay => [Op.image Img.partlyCloudyDay 86 0]
    | _ => []
  else []

/-- The compositor recipe of `main` (the drawing section), parameterized
    by which steps run. Clock and date always draw; the weather steps run
    only inside the `if let Some(currently)` block, in source order:
    temperature, precipitation, wind, current summary, daily summary,
    condition icon. `none` propagates the empty-daily-data panic. -/
def composeOpsG (st : Steps) (P : Params) (f : Forecast) : Option (List Op) :=
  match f.currently with
  | none => some (baseOps P)
  | some cur =>
    match dailyOps st.daily P f.daily ((sumOps st.summary P cur).2 + 1) with
    | none => none
    | some dOps =>
      some (baseOps P ++ tempOps st.temp cur ++ precipOps st.precip cur ++
        windOps st.wind cur ++ (sumOps st.summary P cur).1 ++ dOps ++
        iconOps st.icon cur)

/-- The compositor as the program runs it: every step enabled. -/
def composeOps (P : Params) (f : Forecast) : Option (List Op) :=
  composeOpsG allSteps P f

/-- The external pixel producers (the profont rasterizer and the Image1BPP
    decoder): each yields the finite pixel sequence of a drawable before
    translation. -/
structure Renderers where
  glyphs : Font → String → List (Nat × Nat × Color)
  image : Img → List (Nat × Nat × Color)

/-- The pixels of one drawing operation after its `translate` placement. -/
def opPixels (R : Renderers) : Op → List (Nat × Nat × Color)
  | Op.text f s x y => (R.glyphs f s).map (fun p => (p.1 + x, p.2.1 + y, p.2.2))
  | Op.image img x y => (R.image img).map (fun p => (p.1 + x, p.2.1 + y, p.2.2))

/-- `Drawing::draw` for every op in order: each produced pixel goes through
    `set_pixel`. -/
def applyOps (R : Renderers) (buff : Buff) (ops : List Op) : Buff :=
  ops.foldl
    (fun b op => (opPixels R op).foldl (fun b2 p => set_pixel b2 p.1 p.2.1 p.2.2) b)
    buff

/-- The framebuffer produced by one render cycle under the given step
    selection (`none` = the cycle panicked). -/
def composeFBG (st : Steps) (R : Renderers) (P : Params) (f : Forecast) :
    Option Buff :=
  (composeOpsG st P f).map (applyOps R initialFB)

/-- Absence of the temperature field (trivially absent when the currently
    block itself is absent). -/
def tempAbsent (f : Forecast) : Bool :=
  match f.currently with
  | none => true
  | some cur => cur.temperature.isNone

/-- Absence of the precipitation-probability field. -/
def precipAbsent (f : Forecast) : Bool :=
  match f.currently with
  | none => true
  | some cur => cur.precipProbability.isNone

/-- Absence of the wind field (the step is keyed on wind speed). -/
def windAbsent (f : Forecast) : Bool :=
  match f.currently with
  | none => true
  | some cur => cur.windSpeed.isNone

/-- Absence of the current-conditions summary. -/
def summaryAbsent (f : Forecast) : Bool :=
  match f.currently with
  | none => true
  | some cur => cur.summary.isNone

/-- Absence of the daily summary: daily block absent, its data absent, or
    the first datapoint's summary absent. A present-but-empty data list is
    not an absence case: there the program panics on `&data[0]`. -/
def dailySummaryAbsent (f : Forecast) : Bool :=
  match f.daily with
  | none => true
  | some db =>
    match db.data with
    | none => true
    | some [] => false
    | some (d0 :: _) => d0.summary.isNone

/-- Absence of the condition-icon field. -/
def iconAbsent (f : Forecast) : Bool :=
  match f.currently with
  | none => true
  | some cur => cur.icon.isNone

/-- Big-endian bytes of `WriteBytesExt::write_u32::<BigEndian>`. -/
def u32be (n : Nat) : List Nat :=
  [n / 2 ^ 24 % 256, n / 2 ^ 16 % 256, n / 2 ^ 8 % 256, n % 256]

/-- The transfer framer of `main`: the first serial write is the 4-byte
    big-endian length of the framebuffer (`display.buff.len() as u32`),
    the second is the raw buffer. -/
def frame (buff : List Nat) : List Nat × List Nat :=
  (u32be (buff.length % 2 ^ 32), buff)

/-- The two writes concatenated: the byte stream as seen on the wire. -/
def frameStream (buff : List Nat) : List Nat :=
  (frame buff).1 ++ (frame buff).2

/-- Big-endian decoding of a byte list. -/
def decodeBE4 (bs : List Nat) : Nat :=
  bs.foldl (fun a b => a * 256 + b) 0

/-- A concrete renderer for counterexamples: 9pt text renders a single
    black pixel at its origin, everything else renders no pixels. -/
def R0 : Renderers :=
  ⟨fun f _ => match f with
    | Font.P9 => [(0, 0, Color.Black)]
    | _ => [], fun _ => []⟩

/-- Concrete cycle inputs with empty clock and date text and the identity
    word wrapper. -/
def P0 : Params := ⟨"", "", fun s => s⟩

/-- A currently datapoint with every optional field absent. -/
def dp0 : Datapoint := ⟨none, none, none, none, none, none⟩

/-- A daily datapoint whose summary is present. -/
def dpD : Datapoint := ⟨none, none, none, none, some "x", none⟩

/-- A daily block with one datapoint carrying a summary. -/
def db0 : Datablock := ⟨some [dpD], none, none⟩

/-- A daily block whose data list is present but empty. -/
def dbEmpty : Datablock := ⟨some [], none, none⟩

/-- Forecast: no currently block, daily summary present. -/
def fNoCur : Forecast := ⟨none, some db0⟩

/-- Forecast: no currently block, no daily block. -/
def fNoCurNoDaily : Forecast := ⟨none, none⟩

/-- Forecast: empty currently block present, daily summary present. -/
def fCur : Forecast := ⟨some dp0, some db0⟩

/-- Forecast: empty currently block present, no daily block. -/
def fCurNoDaily : Forecast := ⟨some dp0, none⟩

/-- Forecast: currently present, daily data present but empty. -/
def fPanic : Forecast := ⟨some dp0, some dbEmpty⟩

/-- The byte at index `i` of an optional framebuffer (0 when the cycle
    panicked); used to compare produced framebuffers at a position. -/
def byteAt (o : Option Buff) (i : Nat) : Nat :=
  (o.map (fun b => b i)).getD 0

/-- Helper: a bit mask of the form `0x80 >> k` with `k < 8` determines
    `k`. -/
theorem maskInjAux : ∀ k < 8, ∀ l < 8, (128 : Nat) >>> k = 128 >>> l → k = l := by
  decide

/-- Helper: setting bits by OR makes the masked read return the mask. -/
theorem lorLandSelf (a m : Nat) : (a ||| m) &&& m = m := by
  apply Nat.eq_of_testBit_eq
  intro i
  rw [Nat.testBit_land, Nat.testBit_lor]
  cases Nat.testBit a i <;> cases Nat.testBit m i <;> rfl

/-- C1 counterexample: at pixel (0, 0) the mapper does not return the
    claimed byte index `y / 8 + (H - 1 - x) * (W / 8)` with `H = ROWS` and
    `W = COLS`: the code returns index 3984, the claim computes 3937. -/
theorem c1_counterexample :
    ¬ get_bit 0 0 ROWS COLS =
      (0 / 8 + (ROWS - 1 - 0) * (COLS / 8), 128 >>> (0 % 8)) := by
  decide

/-- C1 amended: for every logical pixel (x, y) with x < ROWS and
    y < COLS, the mapper called as the program calls it,
    `get_bit(x, y, ROWS, COLS)`, returns byte index
    `y / 8 + (H - 1 - x) * (W / 8)` and bit mask `0x80 >> (y % 8)` where
    `H = COLS = 250` and `W = ROWS = 128`: the code passes ROWS as the
    mapper's width and COLS as its height. -/
theorem c1_amended : ∀ x y : Nat, x < ROWS → y < COLS →
    get_bit x y ROWS COLS =
      (y / 8 + (COLS - 1 - x) * (ROWS / 8), 128 >>> (y % 8)) :=
  fun _ _ _ _ => rfl

/-- C1 witness: the amended mapping evaluated at pixel (3, 17). -/
theorem c1_witness :
    3 < ROWS ∧ 17 < COLS ∧
    get_bit 3 17 ROWS COLS =
      (17 / 8 + (COLS - 1 - 3) * (ROWS / 8), 128 >>> (17 % 8)) :=
  ⟨by decide, by decide, c1_amended 3 17 (by decide) (by decide)⟩

/-- C2 counterexample: on the claimed domain x < ROWS, y < COLS the
    mapper is not injective: the distinct in-range pixels (0, 0) and
    (1, 128) receive the same (byte index, bit mask) pair. -/
theorem c2_counterexample :
    get_bit 0 0 ROWS COLS = get_bit 1 128 ROWS COLS ∧
    ¬ (0 : Nat) = 1 ∧ 0 < ROWS ∧ 1 < ROWS ∧ 0 < COLS ∧ 128 < COLS := by
  decide

/-- C2 amended: with the coordinate roles the code actually uses,
    x < COLS along the width and y < ROWS along the height, the mapper's
    (byte index, bit mask) pairs are distinct for distinct (x, y) and
    cover every (byte, bit) position of the `ROWS * COLS / 8`-byte buffer
    exactly once. -/
theorem c2_amended :
    (∀ x y x' y' : Nat, x < COLS → y < ROWS → x' < COLS → y' < ROWS →
      get_bit x y ROWS COLS = get_bit x' y' ROWS COLS → x = x' ∧ y = y') ∧
    (∀ i k : Nat, i < ROWS * COLS / 8 → k < 8 →
      ∃ x y : Nat, x < COLS ∧ y < ROWS ∧
        get_bit x y ROWS COLS = (i, 128 >>> k)) := by
  constructor
  · intro x y x' y' hx hy hx' hy' heq
    have h1 := congrArg Prod.fst heq
    have h2 := congrArg Prod.snd heq
    simp only [get_bit, ROWS, COLS] at h1 h2
    have hm : y % 8 = y' % 8 :=
      maskInjAux (y % 8) (Nat.mod_lt _ (by norm_num)) (y' % 8)
        (Nat.mod_lt _ (by norm_num)) h2
    simp only [ROWS, COLS] at hx hy hx' hy'
    constructor <;> omega
  · intro i k hi hk
    simp only [ROWS, COLS] at hi
    refine ⟨249 - i / 16, i % 16 * 8 + k, ?_, ?_, ?_⟩
    · simp only [COLS]; omega
    · simp only [ROWS]; omega
    · have hy8 : (i % 16 * 8 + k) % 8 = k := by omega
      simp only [get_bit, ROWS, COLS, hy8]
      rw [Prod.mk.injEq]
      exact ⟨by omega, rfl⟩

/-- C2 witness: the injectivity direction applied at the pixel (3, 5)
    against itself, and the coverage direction applied at byte 0, bit 0. -/
theorem c2_witness :
    (3 = 3 ∧ 5 = 5) ∧
    ∃ x y : Nat, x < COLS ∧ y < ROWS ∧ get_bit x y ROWS COLS = (0, 128 >>> 0) :=
  ⟨c2_amended.1 3 5 3 5 (by decide) (by decide) (by decide) (by decide) rfl,
   c2_amended.2 0 0 (by decide) (by decide)⟩

/-- C3, evaluation at the failing input: when the current-conditions
    summary wraps to the three lines a, b, c, the code draws them at
    y = 20, 30, 50 (the loop does `count += i`, accumulating triangular
    offsets), not at the uniform 10-pixel spacing 20, 30, 40 the claim
    states for the third line. -/
theorem c3_lineOffsets :
    (curLoop ["a", "b", "c"] 0 0).1 =
      [Op.text Font.P9 "a" 130 20, Op.text Font.P9 "b" 130 30,
       Op.text Font.P9 "c" 130 50] ∧
    ¬ (20 + 10 * 2 = 50) := by
  decide

/-- Helper: an absent temperature draws nothing whether the step runs or
    not. -/
theorem tempOpsAbsent (cur : Datapoint) (h : cur.temperature = none) :
    ∀ b : Bool, tempOps b cur = [] := by
  intro b; cases b <;> simp [tempOps, h]

/-- Helper: an absent precipitation probability draws nothing whether the
    step runs or not. -/
theorem precipOpsAbsent (cur : Datapoint) (h : cur.precipProbability = none) :
    ∀ b : Bool, precipOps b cur = [] := by
  intro b; cases b <;> simp [precipOps, h]

/-- Helper: an absent wind speed draws nothing whether the step runs or
    not. -/
theorem windOpsAbsent (cur : Datapoint) (h : cur.windSpeed = none) :
    ∀ b : Bool, windOps b cur = [] := by
  intro b; cases b <;> simp [windOps, h]

/-- Helper: an absent current summary draws nothing and leaves the line
    count at 0 whether the step runs or not. -/
theorem sumOpsAbsent (P : Params) (cur : Datapoint) (h : cur.summary = none) :
    ∀ b : Bool, sumOps b P cur = ([], 0) := by
  intro b; cases b <;> simp [sumOps, h]

/-- Helper: an absent condition icon draws nothing whether the step runs
    or not. -/
theorem iconOpsAbsent (cur : Datapoint) (h : cur.icon = none) :
    ∀ b : Bool, iconOps b cur = [] := by
  intro b; cases b <;> simp [iconOps, h]

/-- Helper: an absent daily summary draws nothing whether the step runs
    or not (and in particular does not panic). -/
theorem dailyOpsAbsent (P : Params) (f : Forecast)
    (h : dailySummaryAbsent f = true) :
    ∀ (b : Bool) (count : Nat), dailyOps b P f.daily count = some [] := by
  intro b count
  cases hd : f.daily with
  | none => cases b <;> simp [dailyOps]
  | some db =>
    cases hdata : db.data with
    | none => cases b <;> simp [dailyOps, hdata]
    | some l =>
      cases l with
      | nil => exact absurd h (by simp [dailySummaryAbsent, hd, hdata])
      | cons d0 rest =>
        have hs : d0.summary = none := by
          have h2 := h
          simp [dailySummaryAbsent, hd, hdata,
            Option.isNone_iff_eq_none] at h2
          exact h2
        cases b <;> simp [dailyOps, hdata, hs]

/-- Helper: skipping the temperature step changes nothing when the field
    is absent. -/
theorem composeSkipTemp (P : Params) (f : Forecast) (h : tempAbsent f = true) :
    composeOpsG allSteps P f = composeOpsG skipTemp P f := by
  cases hc : f.currently with
  | none => simp [composeOpsG, hc]
  | some cur =>
    have ht : cur.temperature = none := by
      simpa [tempAbsent, hc, Option.isNone_iff_eq_none] using h
    simp [composeOpsG, hc, allSteps, skipTemp, tempOpsAbsent cur ht]

/-- Helper: skipping the precipitation step changes nothing when the field
    is absent. -/
theorem composeSkipPrecip (P : Params) (f : Forecast)
    (h : precipAbsent f = true) :
    composeOpsG allSteps P f = composeOpsG skipPrecip P f := by
  cases hc : f.currently with
  | none => simp [composeOpsG, hc]
  | some cur =>
    have ht : cur.precipProbability = none := by
      simpa [precipAbsent, hc, Option.isNone_iff_eq_none] using h
    simp [composeOpsG, hc, allSteps, skipPrecip, precipOpsAbsent cur ht]

/-- Helper: skipping the wind step changes nothing when wind speed is
    absent. -/
theorem composeSkipWind (P : Params) (f : Forecast) (h : windAbsent f = true) :
    composeOpsG allSteps P f = composeOpsG skipWind P f := by
  cases hc : f.currently with
  | none => simp [composeOpsG, hc]
  | some cur =>
    have ht : cur.windSpeed = none := by
      simpa [windAbsent, hc, Option.isNone_iff_eq_none] using h
    simp [composeOpsG, hc, allSteps, skipWind, windOpsAbsent cur ht]

/-- Helper: skipping the current-summary step changes nothing when the
    summary is absent. -/
theorem composeSkipSummary (P : Params) (f : Forecast)
    (h : summaryAbsent f = true) :
    composeOpsG allSteps P f = composeOpsG skipSummary P f := by
  cases hc : f.currently with
  | none => simp [composeOpsG, hc]
  | some cur =>
    have ht : cur.summary = none := by
      simpa [summaryAbsent, hc, Option.isNone_iff_eq_none] using h
    simp [composeOpsG, hc, allSteps, skipSummary, sumOpsAbsent P cur ht]

/-- Helper: skipping the daily-summary step changes nothing when the daily
    summary is absent. -/
theorem composeSkipDaily (P : Params) (f : Forecast)
    (h : dailySummaryAbsent f = true) :
    composeOpsG allSteps P f = composeOpsG skipDaily P f := by
  cases hc : f.currently with
  | none => simp [composeOpsG, hc]
  | some cur =>
    simp [composeOpsG, hc, allSteps, skipDaily, dailyOpsAbsent P f h]

/-- Helper: skipping the condition-icon step changes nothing when the icon
    is absent. -/
theorem composeSkipIcon (P : Params) (f : Forecast) (h : iconAbsent f = true) :
    composeOpsG allSteps P f = composeOpsG skipIcon P f := by
  cases hc : f.currently with
  | none => simp [composeOpsG, hc]
  | some cur =>
    have ht : cur.icon = none := by
      simpa [iconAbsent, hc, Option.isNone_iff_eq_none] using h
    simp [composeOpsG, hc, allSteps, skipIcon, iconOpsAbsent cur ht]

/-- C4 counterexample: the daily-summary step does depend on another field
    being present. With a renderer that draws one pixel per 9pt text line,
    the same present daily summary leaves the framebuffer untouched when
    the currently block is absent (identical to dropping the daily block
    entirely), yet changes the framebuffer when an otherwise-empty
    currently block is present. -/
theorem c4_counterexample :
    composeFBG allSteps R0 P0 fNoCur = composeFBG allSteps R0 P0 fNoCurNoDaily ∧
    composeFBG allSteps R0 P0 fCur ≠ composeFBG allSteps R0 P0 fCurNoDaily := by
  constructor
  · rfl
  · intro h
    exact absurd (congrArg (fun o => byteAt o 1907) h) (by decide)

/-- C4 amended: each optional field's absence yields a framebuffer
    identical to the recipe with that step omitted, regardless of the
    other fields; however the weather steps are nested inside the
    currently block, so when the currently block is absent only the clock
    and date are drawn and the daily-summary and condition-icon steps are
    skipped even if their own fields are present. -/
theorem c4_amended : ∀ (R : Renderers) (P : Params) (f : Forecast),
    (tempAbsent f = true →
      composeFBG allSteps R P f = composeFBG skipTemp R P f) ∧
    (precipAbsent f = true →
      composeFBG allSteps R P f = composeFBG skipPrecip R P f) ∧
    (windAbsent f = true →
      composeFBG allSteps R P f = composeFBG skipWind R P f) ∧
    (summaryAbsent f = true →
      composeFBG allSteps R P f = composeFBG skipSummary R P f) ∧
    (dailySummaryAbsent f = true →
      composeFBG allSteps R P f = composeFBG skipDaily R P f) ∧
    (iconAbsent f = true →
      composeFBG allSteps R P f = composeFBG skipIcon R P f) ∧
    (f.currently = none →
      composeFBG allSteps R P f = some (applyOps R initialFB (baseOps P))) := by
  intro R P f
  refine ⟨?_, ?_, ?_, ?_, ?_, ?_, ?_⟩
  · intro h; unfold composeFBG; rw [composeSkipTemp P f h]
  · intro h; unfold composeFBG; rw [composeSkipPrecip P f h]
  · intro h; unfold composeFBG; rw [composeSkipWind P f h]
  · intro h; unfold composeFBG; rw [composeSkipSummary P f h]
  · intro h; unfold composeFBG; rw [composeSkipDaily P f h]
  · intro h; unfold composeFBG; rw [composeSkipIcon P f h]
  · intro h; simp [composeFBG, composeOpsG, h]

/-- C4 witness: the temperature conjunct applied to the concrete forecast
    with no fields at all. -/
theorem c4_witness :
    tempAbsent fNoCurNoDaily = true ∧
    composeFBG allSteps R0 P0 fNoCurNoDaily =
      composeFBG skipTemp R0 P0 fNoCurNoDaily :=
  ⟨rfl, (c4_amended R0 P0 fNoCurNoDaily).1 rfl⟩

/-- C5: wind-bearing bucketing. Bearings 0 and 359 select north, 45
    north-east, 180 south, 270 west; the boundary values 22, 67, 112, 157,
    202, 247, 292, 337 each select the sector beginning there; each whole
    45-degree sector maps to its icon with the north sector wrapping
    across 0/360; and any bearing outside all sectors falls back to the
    north icon. -/
theorem c5_bucketing :
    (windIcon 0 = Arrow.north ∧ windIcon 359 = Arrow.north ∧
     windIcon 45 = Arrow.northEast ∧ windIcon 180 = Arrow.south ∧
     windIcon 270 = Arrow.west ∧
     windIcon 22 = Arrow.northEast ∧ windIcon 67 = Arrow.east ∧
     windIcon 112 = Arrow.southEast ∧ windIcon 157 = Arrow.south ∧
     windIcon 202 = Arrow.southWest ∧ windIcon 247 = Arrow.west ∧
     windIcon 292 = Arrow.northWest ∧ windIcon 337 = Arrow.north) ∧
    (∀ dir : Int,
      ((337 ≤ dir ∧ dir < 360) ∨ (0 ≤ dir ∧ dir < 22) →
        windIcon dir = Arrow.north) ∧
      (22 ≤ dir ∧ dir < 67 → windIcon dir = Arrow.northEast) ∧
      (67 ≤ dir ∧ dir < 112 → windIcon dir = Arrow.east) ∧
      (112 ≤ dir ∧ dir < 157 → windIcon dir = Arrow.southEast) ∧
      (157 ≤ dir ∧ dir < 202 → windIcon dir = Arrow.south) ∧
      (202 ≤ dir ∧ dir < 247 → windIcon dir = Arrow.southWest) ∧
      (247 ≤ dir ∧ dir < 292 → windIcon dir = Arrow.west) ∧
      (292 ≤ dir ∧ dir < 337 → windIcon dir = Arrow.northWest) ∧
      (dir < 0 ∨ 360 ≤ dir → windIcon dir = Arrow.north)) := by
  constructor
  · decide
  · intro dir
    refine ⟨?_, ?_, ?_, ?_, ?_, ?_, ?_, ?_, ?_⟩ <;>
      · intro h
        unfold windIcon
        split_ifs <;> first | rfl | (exfalso; omega)

/-- C5 witness: the fallback conjunct applied at the out-of-range bearing
    400. -/
theorem c5_witness : windIcon 400 = Arrow.north :=
  ((c5_bucketing.2 400).2.2.2.2.2.2.2.2) (Or.inr (by decide))

/-- C6: the transfer framer writes, first, the 4-byte big-endian encoding
    of the framebuffer length `ROWS * COLS / 8` and, second, the raw
    buffer unchanged; on the concatenated stream the first 4 bytes decode
    big-endian to the length and the rest equal the buffer. -/
theorem c6_framing : ∀ buff : List Nat, buff.length = ROWS * COLS / 8 →
    (frame buff).1 = u32be (ROWS * COLS / 8) ∧
    (frame buff).1.length = 4 ∧
    (frame buff).2 = buff ∧
    decodeBE4 ((frameStream buff).take 4) = ROWS * COLS / 8 ∧
    (frameStream buff).drop 4 = buff := by
  intro buff h
  have h1 : (frame buff).1 = u32be (ROWS * COLS / 8) := by
    show u32be (buff.length % 2 ^ 32) = u32be (ROWS * COLS / 8)
    rw [h]
    exact congrArg u32be (by decide)
  have hlen : (frame buff).1.length = 4 := by
    rw [h1]; simp [u32be]
  refine ⟨h1, hlen, rfl, ?_, ?_⟩
  · have ht : (frameStream buff).take 4 = (frame buff).1 := by
      rw [frameStream, ← hlen, List.take_left]
    rw [ht, h1]
    decide
  · have hd : (frameStream buff).drop 4 = (frame buff).2 := by
      rw [frameStream, ← hlen, List.drop_left]
    rw [hd]
    rfl

/-- C6 witness: the framing evaluated on an all-zero buffer of the
    framebuffer's size. -/
theorem c6_witness :
    (List.replicate (ROWS * COLS / 8) (0 : Nat)).length = ROWS * COLS / 8 ∧
    decodeBE4 ((frameStream (List.replicate (ROWS * COLS / 8) (0 : Nat))).take 4) =
      ROWS * COLS / 8 :=
  ⟨by simp, (c6_framing _ (by simp)).2.2.2.1⟩

/-- C7 counterexample: the paired write does not restore the original bit
    for every buffer state: on the all-zero buffer the in-range pixel
    (0, 0) holds bit value 0 before the pair and the Background value
    after it. -/
theorem c7_counterexample :
    pixelBit (set_pixel (set_pixel zeroFB 0 0 Color.Black) 0 0 Color.White) 0 0 ≠
      pixelBit zeroFB 0 0 ∧
    0 < COLS ∧ 0 < ROWS := by
  refine ⟨by decide, by decide, by decide⟩

/-- C7 amended: for every buffer state and in-range coordinate, setting
    the pixel to Foreground and then to Background leaves the addressed
    bit at the Background value (set); consequently the pair restores the
    bit's original value exactly when that bit was Background before the
    writes, as on a freshly initialized framebuffer. -/
theorem c7_amended : ∀ (buff : Buff) (x y : Nat), x < COLS → y < ROWS →
    pixelBit (set_pixel (set_pixel buff x y Color.Black) x y Color.White) x y =
      (get_bit x y ROWS COLS).2 ∧
    (pixelBit buff x y = (get_bit x y ROWS COLS).2 →
      pixelBit (set_pixel (set_pixel buff x y Color.Black) x y Color.White) x y =
        pixelBit buff x y) := by
  intro buff x y hx hy
  have hb : pixelBit
      (set_pixel (set_pixel buff x y Color.Black) x y Color.White) x y =
      (get_bit x y ROWS COLS).2 := by
    simp only [pixelBit, set_pixel, if_pos rfl]
    exact lorLandSelf _ _
  exact ⟨hb, fun h => by rw [hb, h]⟩

/-- C7 witness: the pair of writes at pixel (7, 3) on the fresh all-bits-set
    framebuffer leaves the addressed bit at the mask value. -/
theorem c7_witness :
    7 < COLS ∧ 3 < ROWS ∧
    pixelBit (set_pixel (set_pixel initialFB 7 3 Color.Black) 7 3 Color.White) 7 3 =
      (get_bit 7 3 ROWS COLS).2 :=
  ⟨by decide, by decide, (c7_amended initialFB 7 3 (by decide) (by decide)).1⟩

/-- C8: the freshly constructed framebuffer has `ROWS * COLS / 8` bytes
    and every byte is 255, i.e. every bit holds the Background value. -/
theorem c8_initial :
    initialBuff.length = ROWS * COLS / 8 ∧
    initialBuff.all (fun b => b == 255) = true := by
  constructor
  · simp [initialBuff]
  · rw [List.all_eq_true]
    intro b hb
    simp only [initialBuff] at hb
    have hbv := List.eq_of_mem_replicate hb
    simp [hbv]

/-- C9: the ordinal-to-Color conversions (from `u8` and from `u16`) map 0
    to Black (Foreground) and 1 to White (Background) and reject every
    other value as fatal: the source panics there, modelled as `none`. -/
theorem c9_colorConv : ∀ n : Nat,
    colorFromU8 n =
      (if n = 0 then some Color.Black
       else if n = 1 then some Color.White else none) ∧
    colorFromU16 n =
      (if n = 0 then some Color.Black
       else if n = 1 then some Color.White else none) := by
  intro n
  match n with
  | 0 => exact ⟨rfl, rfl⟩
  | 1 => exact ⟨rfl, rfl⟩
  | n + 2 =>
    have h0 : n + 2 ≠ 0 := by omega
    have h1 : n + 2 ≠ 1 := by omega
    simp [colorFromU8, colorFromU16, h0, h1]

/-- C10: when the currently block and the daily block are present and the
    daily data list is present but empty, the render cycle panics (the
    `&data[0]` index, modelled as `none`) instead of skipping the
    daily-summary step. -/
theorem c10_panicOnEmptyDaily :
    ∀ (P : Params) (f : Forecast) (cur : Datapoint) (db : Datablock),
    f.currently = some cur → f.daily = some db → db.data = some [] →
    composeOps P f = none := by
  intro P f cur db hc hd he
  simp [composeOps, composeOpsG, hc, hd, dailyOps, he, allSteps]

/-- C10 witness: the panic at the concrete forecast with an empty
    currently block and an empty daily data list. -/
theorem c10_witness : composeOps P0 fPanic = none :=
  c10_panicOnEmptyDaily P0 fPanic dp0 dbEmpty rfl rfl rfl
